import Mathlib

/-
Verification development for the cipherx-frontend repository.

Two components are embedded, both over exact rational arithmetic (ℚ in
place of JavaScript IEEE doubles; the repository only performs +, -, *, /
and 2-decimal rounding, all of which are exact here for the inputs the
theorems exercise):

1. The file-transfer estimator (components/calculator.tsx): unit
   conversion, compression, unit normalization, speed modifiers, and the
   latency-inclusive time formula.

2. The network probe orchestrator (app/page.tsx): the shared
   fetch-with-retry helper, the ping wall-clock override, the download
   stream abort, and the history append.
-/

namespace CipherX

/-- The five file-size units, in the order of the `units` array. -/
inductive FileUnit
  | bytes
  | KB
  | MB
  | GB
  | TB
deriving DecidableEq

/-- The `units` array: `["bytes", "KB", "MB", "GB", "TB"]`. -/
def units : List FileUnit := [FileUnit.bytes, FileUnit.KB, FileUnit.MB, FileUnit.GB, FileUnit.TB]

/-- The `unitSizes` record: binary (IEC) multipliers. -/
def unitSizes : FileUnit → ℚ
  | FileUnit.bytes => 1
  | FileUnit.KB => 1024
  | FileUnit.MB => 1024 * 1024
  | FileUnit.GB => 1024 * 1024 * 1024
  | FileUnit.TB => 1024 * 1024 * 1024 * 1024

/-- Position of a unit in the `units` array. -/
def unitIndexOf : FileUnit → ℕ
  | FileUnit.bytes => 0
  | FileUnit.KB => 1
  | FileUnit.MB => 2
  | FileUnit.GB => 3
  | FileUnit.TB => 4

/-- The `FileData` interface. -/
structure FileData where
  name : String
  size : ℚ
  unit : FileUnit
  type : String

/-- `convertToBytes(size, unit) = size * unitSizes[unit]`. -/
def convertToBytes (size : ℚ) (unit : FileUnit) : ℚ := size * unitSizes unit

/-- Explicit floor on ℚ (equal to `Int.floor`, see `ratFloor_eq_floor`),
kept as a plain integer division so that kernel evaluation works. -/
def ratFloor (q : ℚ) : ℤ := q.num / (q.den : ℤ)

/-- Models `Number.parseFloat(x.toFixed(2))`: rounding to 2 decimal places
(ties rounded half up, matching the decimal rounding of `toFixed`). -/
def round2 (q : ℚ) : ℚ := ((ratFloor (q * 100 + 1 / 2) : ℤ) : ℚ) / 100

/-- The while loop of `convertFromBytes`:
`while (size >= 1024 && unitIndex < units.length - 1) { size /= 1024; unitIndex++ }`.
The loop body can run at most 4 times (the index check caps it), so a fuel
of 4 runs the loop to completion; `convertFromBytes` supplies that fuel. -/
def convertFromBytesLoop : ℕ → ℚ → ℕ → ℚ × ℕ
  | 0, size, unitIndex => (size, unitIndex)
  | fuel + 1, size, unitIndex =>
      if 1024 ≤ size ∧ unitIndex < 4 then convertFromBytesLoop fuel (size / 1024) (unitIndex + 1)
      else (size, unitIndex)

/-- The record `{ size, unit }` returned by `convertFromBytes`. -/
structure SizeWithUnit where
  size : ℚ
  unit : FileUnit
deriving DecidableEq

/-- `convertFromBytes(bytes)`: repeatedly divide by 1024 while the value is
at least 1024 and a coarser unit exists, then round to 2 decimals. -/
def convertFromBytes (bytes : ℚ) : SizeWithUnit :=
  let p := convertFromBytesLoop 4 bytes 0
  { size := round2 p.1, unit := units.getD p.2 FileUnit.TB }

/-- `calculateTime(size, speed) = (size * 8) / (speed * 1024 * 1024)`. -/
def calculateTime (size speed : ℚ) : ℚ := size * 8 / (speed * 1024 * 1024)

/-- The cloud storage providers selectable in the component. -/
inductive CloudProvider
  | none
  | googleDrive
  | awsS3
  | oneDrive
deriving DecidableEq

/-- The connection type toggle. -/
inductive ConnectionType
  | wifi
  | ethernet
deriving DecidableEq

/-- The transfer type toggle. -/
inductive TransferType
  | direct
  | p2p
deriving DecidableEq

/-- The component state that `handleEstimate` reads. -/
structure EstimatorConfig where
  downloadSpeed : ℚ
  uploadSpeed : ℚ
  compressionEnabled : Bool
  compressionRate : ℚ
  networkLatency : ℚ
  cloudProvider : CloudProvider
  isVpnEnabled : Bool
  connectionType : ConnectionType
  transferType : TransferType

/-- `calculateTimeWithLatency`: base time plus `networkLatency / 1000`. -/
def calculateTimeWithLatency (cfg : EstimatorConfig) (size speed : ℚ) : ℚ :=
  calculateTime size speed + cfg.networkLatency / 1000

/-- The `cloudSpeedFactors` record. -/
def cloudSpeedFactors : CloudProvider → ℚ
  | CloudProvider.none => 1
  | CloudProvider.googleDrive => 0.9
  | CloudProvider.awsS3 => 1.1
  | CloudProvider.oneDrive => 0.95

/-- `estimateCloudUploadTime(size)`: latency-inclusive time at the base
upload speed scaled by the cloud provider factor. -/
def estimateCloudUploadTime (cfg : EstimatorConfig) (size : ℚ) : ℚ :=
  calculateTimeWithLatency cfg size (cfg.uploadSpeed * cloudSpeedFactors cfg.cloudProvider)

/-- The three estimated durations set by `handleEstimate`. -/
structure EstimationResult where
  downloadTime : ℚ
  uploadTime : ℚ
  cloudUploadTime : ℚ
deriving DecidableEq

/-- `files.reduce((sum, file) => sum + convertToBytes(file.size, file.unit), 0)`. -/
def totalSizeBytesOf (files : List FileData) : ℚ :=
  files.foldl (fun sum file => sum + convertToBytes file.size file.unit) 0

/-- The total byte count after the optional compression step:
`if (compressionEnabled) totalSizeBytes *= 1 - compressionRate / 100`. -/
def compressedSizeBytes (cfg : EstimatorConfig) (files : List FileData) : ℚ :=
  if cfg.compressionEnabled then totalSizeBytesOf files * (1 - cfg.compressionRate / 100)
  else totalSizeBytesOf files

/-- `const { size: finalSize } = convertFromBytes(totalSizeBytes)`. -/
def finalSizeOf (cfg : EstimatorConfig) (files : List FileData) : ℚ :=
  (convertFromBytes (compressedSizeBytes cfg files)).size

/-- `handleEstimate`: aggregate, compress, normalize, apply the VPN,
connection-type and transfer-type speed modifiers, and produce the three
latency-inclusive times. -/
def handleEstimate (cfg : EstimatorConfig) (files : List FileData) : EstimationResult :=
  let finalSize := finalSizeOf cfg files
  let downloadSpeed1 := if cfg.isVpnEnabled then cfg.downloadSpeed * 0.9 else cfg.downloadSpeed
  let uploadSpeed1 := if cfg.isVpnEnabled then cfg.uploadSpeed * 0.9 else cfg.uploadSpeed
  let downloadSpeed2 :=
    if cfg.connectionType = ConnectionType.ethernet then downloadSpeed1 * 1.2 else downloadSpeed1
  let uploadSpeed2 :=
    if cfg.connectionType = ConnectionType.ethernet then uploadSpeed1 * 1.2 else uploadSpeed1
  let downloadSpeed3 :=
    if cfg.transferType = TransferType.p2p then downloadSpeed2 * 0.8 else downloadSpeed2
  let uploadSpeed3 :=
    if cfg.transferType = TransferType.p2p then uploadSpeed2 * 0.8 else uploadSpeed2
  { downloadTime := calculateTimeWithLatency cfg finalSize downloadSpeed3
    uploadTime := calculateTimeWithLatency cfg finalSize uploadSpeed3
    cloudUploadTime := estimateCloudUploadTime cfg finalSize }

/-- A configuration with compression enabled, used for the compression
monotonicity analysis. -/
def compressBase : EstimatorConfig :=
  { downloadSpeed := 1
    uploadSpeed := 1
    compressionEnabled := true
    compressionRate := 50
    networkLatency := 0
    cloudProvider := CloudProvider.none
    isVpnEnabled := false
    connectionType := ConnectionType.wifi
    transferType := TransferType.direct }

/-- A single 2048-byte file. -/
def compressFiles : List FileData :=
  [{ name := "f", size := 2048, unit := FileUnit.bytes, type := "" }]

/-- A configuration with every modifier switched on, used as a witness
input for the zero-file estimate. -/
def zeroFilesConfig : EstimatorConfig :=
  { downloadSpeed := 1
    uploadSpeed := 1
    compressionEnabled := false
    compressionRate := 50
    networkLatency := 75
    cloudProvider := CloudProvider.googleDrive
    isVpnEnabled := true
    connectionType := ConnectionType.ethernet
    transferType := TransferType.p2p }

/-- Configuration of the end-to-end example of the specification. -/
def endToEndConfig : EstimatorConfig :=
  { downloadSpeed := 10
    uploadSpeed := 2
    compressionEnabled := false
    compressionRate := 50
    networkLatency := 0
    cloudProvider := CloudProvider.none
    isVpnEnabled := false
    connectionType := ConnectionType.wifi
    transferType := TransferType.direct }

/-- JSON values, as far as the probe responses need them. -/
inductive JsonVal
  | str (s : String)
  | num (q : ℚ)
  | jsonNull
  | boolean (b : Bool)
deriving DecidableEq

/-- JavaScript truthiness of a JSON value. -/
def JsonVal.truthy : JsonVal → Bool
  | JsonVal.str s => if s = "" then false else true
  | JsonVal.num q => if q = 0 then false else true
  | JsonVal.jsonNull => false
  | JsonVal.boolean b => b

/-- Template-literal rendering of a JSON value, as used when the page
builds the string from `data.error`. Integers render exactly; the
repository never interpolates non-integer numbers into these strings. -/
def JsonVal.display : JsonVal → String
  | JsonVal.str s => s
  | JsonVal.num q => if q.den = 1 then toString q.num else toString q.num ++ "/" ++ toString q.den
  | JsonVal.jsonNull => "null"
  | JsonVal.boolean b => if b then "true" else "false"

/-- A parsed JSON object body. -/
abbrev Json := List (String × JsonVal)

/-- Property lookup `data[key]`; `none` models `undefined`. -/
def jsLookup (body : Json) (key : String) : Option JsonVal :=
  List.lookup key body

/-- JavaScript truthiness of `data[key]`: `undefined` is falsy. -/
def jsTruthy : Option JsonVal → Bool
  | some v => v.truthy
  | none => false

/-- The rendering of `data.error` inside the template literal: a missing
field renders as the text `undefined`. -/
def jsonErrorDisplay (body : Json) : String :=
  match jsLookup body "error" with
  | some v => v.display
  | none => "undefined"

/-- The value stored by `fetchTest` on an OK response with parsed body:
`data[key]` when truthy, otherwise the `Error: ...` string built from
`data.error`. -/
def fetchTestStore (key : String) (body : Json) : JsonVal :=
  match jsLookup body key with
  | some v => if v.truthy then v else JsonVal.str ("Error: " ++ jsonErrorDisplay body)
  | none => JsonVal.str ("Error: " ++ jsonErrorDisplay body)

/-- Outcome of one fetch of a probe endpoint: an OK response with a parsed
JSON body, or a failed attempt (non-OK status, network exception, or JSON
parse failure) with the message of the thrown error. -/
inductive FetchOutcome
  | success (body : Json)
  | failure (message : String)

/-- The retry loop of `fetchTest`: `for (let i = 0; i < retries; i++)`.
`outcome i` is the result of the fetch at loop index i. Returns the total
number of fetches made and the list of result-map writes, in order. The
fuel argument bounds the remaining iterations; `fetchTest` passes
`retries`, which runs the loop to completion. -/
def fetchTestLoop (outcome : ℕ → FetchOutcome) (key : String) (retries : ℕ) :
    ℕ → ℕ → ℕ × List (String × JsonVal)
  | 0, i => (i, [])
  | fuel + 1, i =>
      if i < retries then
        match outcome i with
        | FetchOutcome.success body => (i + 1, [(key, fetchTestStore key body)])
        | FetchOutcome.failure msg =>
            if i = retries - 1 then (i + 1, [(key, JsonVal.str ("Request failed: " ++ msg))])
            else fetchTestLoop outcome key retries fuel (i + 1)
      else (i, [])

/-- `fetchTest(endpoint, key)` with the default budget of 3 retries (every
call site of the page uses the default). -/
def fetchTest (outcome : ℕ → FetchOutcome) (key : String) : ℕ × List (String × JsonVal) :=
  fetchTestLoop outcome key 3 3 0

/-- The result map: probe key to currently displayed value. -/
abbrev Results := String → Option JsonVal

/-- One functional-update store `setResults((prev) => ({ ...prev, [key]: v }))`. -/
def setKey (m : Results) (key : String) (v : JsonVal) : Results :=
  fun k => if k = key then some v else m k

/-- Apply a list of stores in order. -/
def applyStores (m : Results) (stores : List (String × JsonVal)) : Results :=
  stores.foldl (fun acc p => setKey acc p.1 p.2) m

/-- The wholesale `setResults({...})` placeholder map written at the start
of every cycle. -/
def placeholderResults : Results := fun k =>
  if k = "ip" then some (JsonVal.str "Fetching...")
  else if k = "ping" then some (JsonVal.str "Testing...")
  else if k = "download" then some (JsonVal.str "Testing...")
  else if k = "upload" then some (JsonVal.str "Testing...")
  else if k = "nmap" then some (JsonVal.str "Scanning...")
  else if k = "ports" then some (JsonVal.str "Scanning...")
  else if k = "services" then some (JsonVal.str "Detecting...")
  else if k = "vuln" then some (JsonVal.str "Scanning...")
  else if k = "ssl" then some (JsonVal.str "Checking...")
  else if k = "firewall" then some (JsonVal.str "Checking...")
  else none

/-- The initial `useState({})` state: every key undefined. -/
def emptyResults : Results := fun _ => none

/-- Numeric value of a decimal digit character. -/
def digitToNat (c : Char) : ℕ := c.toNat - 48

/-- Value of a list of decimal digit characters. -/
def decimalDigitsVal (cs : List Char) : ℕ :=
  cs.foldl (fun acc c => acc * 10 + digitToNat c) 0

/-- Models JavaScript `parseFloat` for the strings this page produces: an
optional sign, decimal digits, an optional fractional part; trailing
non-numeric text (as in `42ms`) is ignored; no parsable prefix gives NaN,
modelled as `none`. Exponent notation and leading whitespace never occur
in the strings of this page and are not modelled. -/
def jsParseFloat (s : String) : Option ℚ :=
  let cs := s.data
  let sign : ℚ := if cs.head? = some '-' then -1 else 1
  let cs1 := if cs.head? = some '-' ∨ cs.head? = some '+' then cs.tail else cs
  let intDigits := cs1.takeWhile Char.isDigit
  let rest := cs1.dropWhile Char.isDigit
  let fracDigits :=
    match rest with
    | c :: r => if c = '.' then r.takeWhile Char.isDigit else []
    | [] => []
  if intDigits.isEmpty ∧ fracDigits.isEmpty then none
  else
    some (sign * ((decimalDigitsVal intDigits : ℚ)
      + (decimalDigitsVal fracDigits : ℚ) / 10 ^ fracDigits.length))

/-- `parseFloat` applied to a result-map slot: an absent slot is
`undefined`, which parses to NaN (`none`); a numeric slot parses back to
itself (`parseFloat` of the decimal rendering of the number). -/
def jsParseFloatVal : Option JsonVal → Option ℚ
  | some (JsonVal.str s) => jsParseFloat s
  | some (JsonVal.num q) => some q
  | some JsonVal.jsonNull => none
  | some (JsonVal.boolean _) => none
  | none => none

/-- `x.toFixed(2)`: decimal rendering with exactly two fraction digits. -/
def toFixed2 (q : ℚ) : String :=
  let n := ratFloor (q * 100 + 1 / 2)
  let m := n.natAbs
  let sign := if n < 0 then "-" else ""
  sign ++ toString (m / 100) ++ "." ++ (if m % 100 < 10 then "0" else "") ++ toString (m % 100)

/-- JavaScript `a || b` for an optional numeric JSON field: a missing
field or the falsy value 0 falls back to the default. -/
def jsOrNum (o : Option ℚ) (d : ℚ) : ℚ :=
  match o with
  | some t => if t = 0 then d else t
  | none => d

/-- Outcome of the upload POST: an OK response carrying the `uploadTime`
field of the response JSON (when present as a number) and the
client-measured elapsed milliseconds, or a failure (non-OK status throws,
and exceptions are caught) with the message of the caught error. -/
inductive UploadOutcome
  | ok (serverUploadTime : Option ℚ) (clientElapsedMs : ℕ)
  | fail (message : String)

/-- One HistoryEntry; `none` in a numeric field models NaN. -/
structure HistoryEntry where
  timestamp : String
  ping : Option ℚ
  download : Option ℚ
  upload : Option ℚ
deriving DecidableEq

/-- The network and clock environment of one probe cycle: `fetch e i` is
the outcome of the fetch of endpoint `e` at retry index i; pingStart and
pingEnd are the wall-clock readings taken before and after the ping probe;
the download stream is summarized by whether a readable body exists, the
total bytes received, and the elapsed milliseconds; the upload POST by its
UploadOutcome; timestamp is the formatted local time of the history
append. -/
structure CycleEnv where
  fetch : String → ℕ → FetchOutcome
  pingStart : ℕ
  pingEnd : ℕ
  downloadHasBody : Bool
  downloadBytes : ℕ
  downloadElapsedMs : ℕ
  uploadOutcome : UploadOutcome
  timestamp : String

/-- What one invocation of `fetchData` leaves behind: the final result
map, the appended HistoryEntry if the cycle completed, the loading flag,
and the message of the uncaught thrown error if the cycle aborted. -/
structure CycleOutcome where
  results : Results
  historyEntry : Option HistoryEntry
  loading : Bool
  aborted : Option String

/-- `fetchData`. `results0` is the component state captured by the closure
when `fetchData` is invoked: under React `useState` semantics the
`results` binding read inside the closure is NOT updated by the
`setResults` calls the cycle itself performs, so the history append at the
end reads this stale snapshot. The six trailing scan probes run
concurrently in the source but each writes only its own key, so applying
their stores in sequence yields the same final map. The progress bar state
is display-only and not modelled. -/
def fetchData (results0 : Results) (env : CycleEnv) : CycleOutcome :=
  let r1 := placeholderResults
  let r2 := applyStores r1 (fetchTest (env.fetch "ip") "ip").2
  let r3 := applyStores r2 (fetchTest (env.fetch "ping") "ping").2
  let r4 := setKey r3 "ping" (JsonVal.str (toString (env.pingEnd - env.pingStart) ++ "ms"))
  if env.downloadHasBody then
    let downloadSpeed :=
      ((env.downloadBytes : ℚ) / ((env.downloadElapsedMs : ℚ) / 1000)) / 1024 / 1024
    let r5 := setKey r4 "download"
      (JsonVal.str ("Download Speed: " ++ toFixed2 downloadSpeed ++ " MB/s"))
    let uploadResult : ℚ × JsonVal :=
      match env.uploadOutcome with
      | UploadOutcome.ok serverUploadTime clientElapsedMs =>
          let uploadTime := jsOrNum serverUploadTime (clientElapsedMs : ℚ)
          let s := ((env.downloadBytes : ℚ) / (uploadTime / 1000)) / 1024 / 1024
          (s, JsonVal.str ("Upload Speed: " ++ toFixed2 s ++ " MB/s"))
      | UploadOutcome.fail msg => (0, JsonVal.str ("Upload failed: " ++ msg))
    let r6 := setKey r5 "upload" uploadResult.2
    let r7 := applyStores r6 (fetchTest (env.fetch "nmap") "nmap").2
    let r8 := applyStores r7 (fetchTest (env.fetch "open-ports") "ports").2
    let r9 := applyStores r8 (fetchTest (env.fetch "services") "services").2
    let r10 := applyStores r9 (fetchTest (env.fetch "vuln-scan") "vuln").2
    let r11 := applyStores r10 (fetchTest (env.fetch "ssl-check") "ssl").2
    let r12 := applyStores r11 (fetchTest (env.fetch "firewall-check") "firewall").2
    { results := r12
      historyEntry := some
        { timestamp := env.timestamp
          ping := jsParseFloatVal (results0 "ping")
          download := jsParseFloat (toFixed2 downloadSpeed)
          upload := jsParseFloat (toFixed2 uploadResult.1) }
      loading := false
      aborted := none }
  else
    { results := r4
      historyEntry := none
      loading := true
      aborted := some "Failed to read download stream" }

/-- A first-cycle environment in which every scan endpoint is down, the
ping round trip measures 42 ms, and download and upload both move 1 MiB in
one second. -/
def staleEnv : CycleEnv :=
  { fetch := fun _ _ => FetchOutcome.failure "down"
    pingStart := 0
    pingEnd := 42
    downloadHasBody := true
    downloadBytes := 1048576
    downloadElapsedMs := 1000
    uploadOutcome := UploadOutcome.ok Option.none 1000
    timestamp := "t" }

/-- An environment whose download response has no readable stream body. -/
def abortEnv : CycleEnv :=
  { fetch := fun _ _ => FetchOutcome.failure "down"
    pingStart := 0
    pingEnd := 42
    downloadHasBody := false
    downloadBytes := 0
    downloadElapsedMs := 0
    uploadOutcome := UploadOutcome.fail "unreached"
    timestamp := "t" }

/-- An environment whose ping endpoint returns the JSON body with
ping = 999 while the wall clock measures a 42 ms round trip. -/
def pingEnv999 : CycleEnv :=
  { fetch := fun e _ =>
      if e = "ping" then FetchOutcome.success [("ping", JsonVal.num 999)]
      else FetchOutcome.failure "down"
    pingStart := 0
    pingEnd := 42
    downloadHasBody := true
    downloadBytes := 1048576
    downloadElapsedMs := 1000
    uploadOutcome := UploadOutcome.ok Option.none 1000
    timestamp := "t" }

end CipherX

namespace CipherX

theorem ratFloor_eq_floor (q : ℚ) : ratFloor q = ⌊q⌋ := Rat.floor_def.symm

/-- Evaluation rule for `round2` once an integer bracketing of the scaled
value is known. -/
theorem round2_eval (q : ℚ) (n : ℤ) (h1 : (n : ℚ) ≤ q * 100 + 1 / 2)
    (h2 : q * 100 + 1 / 2 < n + 1) : round2 q = (n : ℚ) / 100 := by
  rw [round2, ratFloor_eq_floor, Int.floor_eq_iff.mpr ⟨h1, h2⟩]

/-- `round2` fixes integers. -/
theorem round2_intCast (n : ℤ) : round2 ((n : ℚ)) = (n : ℚ) := by
  have h1 : ((n * 100 : ℤ) : ℚ) ≤ (n : ℚ) * 100 + 1 / 2 := by push_cast; linarith
  have h2 : (n : ℚ) * 100 + 1 / 2 < ((n * 100 : ℤ) : ℚ) + 1 := by push_cast; linarith
  rw [round2_eval _ (n * 100) h1 h2]; push_cast; ring

theorem convertFromBytesLoop_zero (size : ℚ) (i : ℕ) :
    convertFromBytesLoop 0 size i = (size, i) := rfl

theorem convertFromBytesLoop_succ (fuel : ℕ) (size : ℚ) (i : ℕ) :
    convertFromBytesLoop (fuel + 1) size i =
      if 1024 ≤ size ∧ i < 4 then convertFromBytesLoop fuel (size / 1024) (i + 1)
      else (size, i) := rfl

theorem convertFromBytesLoop_four (size : ℚ) (i : ℕ) :
    convertFromBytesLoop 4 size i =
      if 1024 ≤ size ∧ i < 4 then convertFromBytesLoop 3 (size / 1024) (i + 1)
      else (size, i) := rfl

theorem convertFromBytesLoop_three (size : ℚ) (i : ℕ) :
    convertFromBytesLoop 3 size i =
      if 1024 ≤ size ∧ i < 4 then convertFromBytesLoop 2 (size / 1024) (i + 1)
      else (size, i) := rfl

theorem convertFromBytesLoop_two (size : ℚ) (i : ℕ) :
    convertFromBytesLoop 2 size i =
      if 1024 ≤ size ∧ i < 4 then convertFromBytesLoop 1 (size / 1024) (i + 1)
      else (size, i) := rfl

theorem convertFromBytesLoop_one (size : ℚ) (i : ℕ) :
    convertFromBytesLoop 1 size i =
      if 1024 ≤ size ∧ i < 4 then convertFromBytesLoop 0 (size / 1024) (i + 1)
      else (size, i) := rfl

/-- C1: For one file of size 10 with unit MB, compression disabled, download
speed 10 Mbps, latency 0 ms, no VPN, wifi, direct transfer, handleEstimate
yields downloadTime equal to (10*8)/(10*1024*1024) seconds: the time formula
is applied to the unit-normalized magnitude 10, not to the raw byte count. -/
theorem endToEndExample :
    (handleEstimate endToEndConfig
        [{ name := "file", size := 10, unit := FileUnit.MB, type := "text/plain" }]).downloadTime
      = (10 * 8) / (10 * 1024 * 1024) := by
  have hbytes : compressedSizeBytes endToEndConfig
      [{ name := "file", size := 10, unit := FileUnit.MB, type := "text/plain" }] = 10485760 := by
    norm_num [compressedSizeBytes, totalSizeBytesOf, convertToBytes, unitSizes, endToEndConfig]
  have hfinal : finalSizeOf endToEndConfig
      [{ name := "file", size := 10, unit := FileUnit.MB, type := "text/plain" }] = 10 := by
    rw [finalSizeOf, hbytes, convertFromBytes]
    norm_num [convertFromBytesLoop_four, convertFromBytesLoop_three, convertFromBytesLoop_two]
    rw [round2_eval 10 1000 (by norm_num) (by norm_num)]
    norm_num
  simp only [handleEstimate]
  rw [hfinal]
  simp [endToEndConfig, calculateTimeWithLatency, calculateTime]

theorem round2_zero : round2 0 = 0 := by simpa using round2_intCast 0

theorem calculateTime_zero (speed : ℚ) : calculateTime 0 speed = 0 := by
  simp [calculateTime]

theorem convertFromBytes_zero :
    convertFromBytes 0 = { size := 0, unit := FileUnit.bytes } := by
  rw [convertFromBytes, convertFromBytesLoop_four]
  norm_num [round2_zero, units]

/-- Whenever the compressed byte total is zero, all three estimated times
collapse to the latency floor. -/
theorem handleEstimate_of_zero_bytes (cfg : EstimatorConfig) (files : List FileData)
    (h : compressedSizeBytes cfg files = 0) :
    (handleEstimate cfg files).downloadTime = cfg.networkLatency / 1000 ∧
    (handleEstimate cfg files).uploadTime = cfg.networkLatency / 1000 ∧
    (handleEstimate cfg files).cloudUploadTime = cfg.networkLatency / 1000 := by
  have hf : finalSizeOf cfg files = 0 := by
    rw [finalSizeOf, h, convertFromBytes_zero]
  refine ⟨?_, ?_, ?_⟩ <;>
    simp [handleEstimate, hf, calculateTimeWithLatency, calculateTime_zero,
      estimateCloudUploadTime]

theorem unitSizes_nonneg (u : FileUnit) : 0 ≤ unitSizes u := by
  cases u <;> norm_num [unitSizes]

theorem totalSizeBytesOf_foldl_nonneg (files : List FileData) :
    ∀ a : ℚ, 0 ≤ a → (∀ f ∈ files, 0 ≤ f.size) →
      0 ≤ files.foldl (fun sum file => sum + convertToBytes file.size file.unit) a := by
  induction files with
  | nil => intro a ha _; simpa using ha
  | cons f l ih =>
      intro a ha hs
      simp only [List.foldl_cons]
      apply ih
      · exact add_nonneg ha
          (mul_nonneg (hs f (List.mem_cons_self f l)) (unitSizes_nonneg f.unit))
      · intro g hg; exact hs g (List.mem_cons_of_mem f hg)

theorem totalSizeBytesOf_nonneg (files : List FileData)
    (hs : ∀ f ∈ files, 0 ≤ f.size) : 0 ≤ totalSizeBytesOf files :=
  totalSizeBytesOf_foldl_nonneg files 0 le_rfl hs

/-- C3 counterexample: with the single 2048-byte file, a positive speed, zero
latency and compression enabled, raising the compression rate from 50 to 75
strictly increases downloadTime (1024 bytes normalize to 1 KB and the
formula consumes the magnitude 1, while 512 bytes keep the magnitude 512),
refuting the claimed monotone decrease. -/
theorem compressionNotMonotone_counterexample :
    (handleEstimate compressBase compressFiles).downloadTime <
      (handleEstimate { compressBase with compressionRate := 75 } compressFiles).downloadTime := by
  have hb50 : compressedSizeBytes compressBase compressFiles = 1024 := by
    norm_num [compressedSizeBytes, totalSizeBytesOf, convertToBytes, unitSizes,
      compressBase, compressFiles]
  have hf50 : finalSizeOf compressBase compressFiles = 1 := by
    rw [finalSizeOf, hb50, convertFromBytes]
    norm_num [convertFromBytesLoop_four, convertFromBytesLoop_three, units]
    rw [round2_eval 1 100 (by norm_num) (by norm_num)]
    norm_num
  have hb75 : compressedSizeBytes { compressBase with compressionRate := 75 } compressFiles
      = 512 := by
    norm_num [compressedSizeBytes, totalSizeBytesOf, convertToBytes, unitSizes,
      compressBase, compressFiles]
  have hf75 : finalSizeOf { compressBase with compressionRate := 75 } compressFiles = 512 := by
    rw [finalSizeOf, hb75, convertFromBytes]
    norm_num [convertFromBytesLoop_four, units]
    rw [round2_eval 512 51200 (by norm_num) (by norm_num)]
    norm_num
  have e50 : (handleEstimate compressBase compressFiles).downloadTime = 1 / 131072 := by
    simp only [handleEstimate]
    rw [hf50]
    simp [compressBase, calculateTimeWithLatency, calculateTime]
    norm_num
  have e75 : (handleEstimate { compressBase with compressionRate := 75 } compressFiles).downloadTime
      = 1 / 256 := by
    simp only [handleEstimate]
    rw [hf75]
    simp [compressBase, calculateTimeWithLatency, calculateTime]
    norm_num
  rw [e50, e75]
  norm_num

/-- C3 (amended): with compression enabled and nonnegative file sizes, the
compressed byte total before unit normalization is antitone in the
compression rate, and at rate 100 downloadTime equals exactly the latency
floor; downloadTime itself is not monotone in the rate, because the unit
normalization of convertFromBytes rescales the magnitude the time formula
consumes (see the counterexample). -/
theorem compressionMonotonicity_amended (cfg : EstimatorConfig) (files : List FileData)
    (r1 r2 : ℚ) (hc : cfg.compressionEnabled = true)
    (hs : ∀ f ∈ files, 0 ≤ f.size) (h12 : r1 ≤ r2) :
    compressedSizeBytes { cfg with compressionRate := r2 } files ≤
      compressedSizeBytes { cfg with compressionRate := r1 } files ∧
    (handleEstimate { cfg with compressionRate := 100 } files).downloadTime
      = cfg.networkLatency / 1000 := by
  have ht : 0 ≤ totalSizeBytesOf files := totalSizeBytesOf_nonneg files hs
  constructor
  · simp only [compressedSizeBytes, hc, if_true]
    exact mul_le_mul_of_nonneg_left (by linarith) ht
  · have h0 : compressedSizeBytes { cfg with compressionRate := 100 } files = 0 := by
      simp only [compressedSizeBytes, hc, if_true]
      norm_num
    exact (handleEstimate_of_zero_bytes _ files h0).1

/-- C3 witness: concrete instantiation of the amended statement. -/
theorem compressionMonotonicity_witness :
    compressedSizeBytes { compressBase with compressionRate := 20 } compressFiles ≤
      compressedSizeBytes { compressBase with compressionRate := 10 } compressFiles ∧
    (handleEstimate { compressBase with compressionRate := 100 } compressFiles).downloadTime
      = compressBase.networkLatency / 1000 :=
  compressionMonotonicity_amended compressBase compressFiles 10 20 rfl (by decide) (by decide)

/-- C5: With an empty file list the total is zero bytes, so all three
estimated times equal exactly networkLatency / 1000. The positivity
hypotheses record the §3 invariant that speeds are positive (a zero speed
is a degenerate input producing NaN in the JavaScript source). -/
theorem zeroFilesLatencyFloor (cfg : EstimatorConfig)
    (_hd : 0 < cfg.downloadSpeed) (_hu : 0 < cfg.uploadSpeed) :
    (handleEstimate cfg []).downloadTime = cfg.networkLatency / 1000 ∧
    (handleEstimate cfg []).uploadTime = cfg.networkLatency / 1000 ∧
    (handleEstimate cfg []).cloudUploadTime = cfg.networkLatency / 1000 := by
  have h : compressedSizeBytes cfg [] = 0 := by
    simp [compressedSizeBytes, totalSizeBytesOf]
  exact handleEstimate_of_zero_bytes cfg [] h

/-- C5 witness: a concrete configuration with every modifier switched on. -/
theorem zeroFilesLatencyFloor_witness :
    (handleEstimate zeroFilesConfig []).downloadTime = zeroFilesConfig.networkLatency / 1000 ∧
    (handleEstimate zeroFilesConfig []).uploadTime = zeroFilesConfig.networkLatency / 1000 ∧
    (handleEstimate zeroFilesConfig []).cloudUploadTime = zeroFilesConfig.networkLatency / 1000 :=
  zeroFilesLatencyFloor zeroFilesConfig (by decide) (by decide)

/-- C6: cloudUploadTime is computed from the base upload speed times the
cloud provider factor through the latency-inclusive formula; it does not
change when the VPN, connection-type and transfer-type modifiers are reset,
and the factors are none=1, google-drive=0.9, aws-s3=1.1, onedrive=0.95. -/
theorem cloudUploadUsesBaseSpeed (cfg : EstimatorConfig) (files : List FileData) :
    (handleEstimate cfg files).cloudUploadTime =
      calculateTimeWithLatency cfg (finalSizeOf cfg files)
        (cfg.uploadSpeed * cloudSpeedFactors cfg.cloudProvider) ∧
    (handleEstimate cfg files).cloudUploadTime =
      (handleEstimate
        { cfg with
          isVpnEnabled := false
          connectionType := ConnectionType.wifi
          transferType := TransferType.direct } files).cloudUploadTime ∧
    cloudSpeedFactors CloudProvider.none = 1 ∧
    cloudSpeedFactors CloudProvider.googleDrive = 0.9 ∧
    cloudSpeedFactors CloudProvider.awsS3 = 1.1 ∧
    cloudSpeedFactors CloudProvider.oneDrive = 0.95 :=
  ⟨rfl, rfl, rfl, rfl, rfl, rfl⟩

/-- C4 counterexample: for x = 1/2 and u = KB the round trip returns
512 bytes, a unit strictly finer than KB, refuting the claim that the
returned unit is always the same as u or coarser. -/
theorem unitRoundTrip_counterexample :
    convertFromBytes (convertToBytes (1 / 2) FileUnit.KB)
      = { size := 512, unit := FileUnit.bytes } ∧
    unitIndexOf (convertFromBytes (convertToBytes (1 / 2) FileUnit.KB)).unit
      < unitIndexOf FileUnit.KB := by
  have hb : convertToBytes (1 / 2 : ℚ) FileUnit.KB = 512 := by
    norm_num [convertToBytes, unitSizes]
  have hc : convertFromBytes (512 : ℚ) = { size := 512, unit := FileUnit.bytes } := by
    rw [convertFromBytes, convertFromBytesLoop_four]
    norm_num [units]
    rw [round2_eval 512 51200 (by norm_num) (by norm_num)]
    norm_num
  rw [hb, hc]
  exact ⟨rfl, by decide⟩

theorem convertFromBytesLoop_decomp (fuel : ℕ) :
    ∀ (size : ℚ) (i : ℕ), ∃ j, j ≤ fuel ∧
      convertFromBytesLoop fuel size i = (size / 1024 ^ j, i + j) := by
  induction fuel with
  | zero =>
      intro size i
      exact ⟨0, le_rfl, by simp [convertFromBytesLoop_zero]⟩
  | succ fuel ih =>
      intro size i
      rw [convertFromBytesLoop_succ]
      by_cases h : 1024 ≤ size ∧ i < 4
      · rw [if_pos h]
        obtain ⟨j, hj, hEq⟩ := ih (size / 1024) (i + 1)
        refine ⟨j + 1, by omega, ?_⟩
        rw [hEq, Prod.mk.injEq]
        constructor
        · rw [div_div, ← pow_succ']
        · omega
      · rw [if_neg h]
        exact ⟨0, by omega, by simp⟩

theorem convertFromBytesLoop_reach (fuel : ℕ) :
    ∀ (m i : ℕ) (size : ℚ), m ≤ fuel → i + m ≤ 4 → (1024 : ℚ) ^ m ≤ size →
      i + m ≤ (convertFromBytesLoop fuel size i).2 := by
  induction fuel with
  | zero =>
      intro m i size hm _ _
      interval_cases m
      simp [convertFromBytesLoop_zero]
  | succ fuel ih =>
      intro m i size hm hi hsize
      match m with
      | 0 =>
          obtain ⟨j, _, hEq⟩ := convertFromBytesLoop_decomp (fuel + 1) size i
          rw [hEq]
          simp
      | Nat.succ m' =>
          have hcond : 1024 ≤ size ∧ i < 4 := by
            constructor
            · calc (1024 : ℚ) = 1024 ^ 1 := by norm_num
                _ ≤ 1024 ^ (m' + 1) := by
                    apply pow_le_pow_right₀ (by norm_num)
                    omega
                _ ≤ size := hsize
            · omega
          rw [convertFromBytesLoop_succ, if_pos hcond]
          have hdiv : (1024 : ℚ) ^ m' ≤ size / 1024 := by
            rw [le_div_iff₀ (by norm_num : (0 : ℚ) < 1024)]
            calc (1024 : ℚ) ^ m' * 1024 = 1024 ^ (m' + 1) := by rw [pow_succ]
              _ ≤ size := hsize
          have := ih m' (i + 1) (size / 1024) (by omega) (by omega) hdiv
          omega

theorem unitIndexOf_le4 (u : FileUnit) : unitIndexOf u ≤ 4 := by
  cases u <;> simp [unitIndexOf]

theorem unitSizes_eq_pow (u : FileUnit) : unitSizes u = 1024 ^ unitIndexOf u := by
  cases u <;> norm_num [unitSizes, unitIndexOf]

theorem units_getD_spec (j : ℕ) (hj : j ≤ 4) :
    unitIndexOf (units.getD j FileUnit.TB) = j ∧
    unitSizes (units.getD j FileUnit.TB) = 1024 ^ j := by
  interval_cases j <;> norm_num [units, unitIndexOf, unitSizes]

theorem round2_close (q : ℚ) : |round2 q - q| ≤ 1 / 200 := by
  rw [round2, ratFloor_eq_floor]
  have h1 : ((⌊q * 100 + 1 / 2⌋ : ℤ) : ℚ) ≤ q * 100 + 1 / 2 := Int.floor_le _
  have h2 : q * 100 + 1 / 2 < (⌊q * 100 + 1 / 2⌋ : ℤ) + 1 := Int.lt_floor_add_one _
  rw [abs_le]
  constructor <;> [linarith; linarith]

/-- C4 (amended): for sizes x at least 1 the round trip
convertFromBytes (convertToBytes x u) returns the same or a coarser unit,
and a size within 0.01 of x re-expressed in the returned unit; for
0 < x < 1 the returned unit can be strictly finer (see the
counterexample), which is the only part of the original claim that fails. -/
theorem unitRoundTrip_amended (x : ℚ) (u : FileUnit) (hx : 1 ≤ x) :
    unitIndexOf u ≤ unitIndexOf (convertFromBytes (convertToBytes x u)).unit ∧
    |(convertFromBytes (convertToBytes x u)).size -
        convertToBytes x u / unitSizes (convertFromBytes (convertToBytes x u)).unit|
      ≤ 1 / 100 := by
  obtain ⟨j, hj4, hloop⟩ := convertFromBytesLoop_decomp 4 (convertToBytes x u) 0
  have hreach : 0 + unitIndexOf u ≤ (convertFromBytesLoop 4 (convertToBytes x u) 0).2 := by
    apply convertFromBytesLoop_reach 4 (unitIndexOf u) 0 (convertToBytes x u)
      (unitIndexOf_le4 u) (by simpa using unitIndexOf_le4 u)
    rw [convertToBytes, unitSizes_eq_pow]
    calc (1024 : ℚ) ^ unitIndexOf u = 1 * 1024 ^ unitIndexOf u := by ring
      _ ≤ x * 1024 ^ unitIndexOf u := by
          apply mul_le_mul_of_nonneg_right hx (by positivity)
  have hju : unitIndexOf u ≤ j := by
    rw [hloop] at hreach
    simpa using hreach
  have hcf : convertFromBytes (convertToBytes x u)
      = { size := round2 (convertToBytes x u / 1024 ^ j), unit := units.getD j FileUnit.TB } := by
    rw [convertFromBytes, hloop]
    simp
  obtain ⟨hgi, hgs⟩ := units_getD_spec j hj4
  constructor
  · rw [hcf]
    show unitIndexOf u ≤ unitIndexOf (units.getD j FileUnit.TB)
    rw [hgi]
    exact hju
  · rw [hcf]
    simp only [hgs]
    exact le_trans (round2_close _) (by norm_num)

/-- C4 witness: concrete instantiation of the amended statement at
x = 2048 KB. -/
theorem unitRoundTrip_witness :
    unitIndexOf FileUnit.KB
      ≤ unitIndexOf (convertFromBytes (convertToBytes 2048 FileUnit.KB)).unit ∧
    |(convertFromBytes (convertToBytes 2048 FileUnit.KB)).size -
        convertToBytes 2048 FileUnit.KB /
          unitSizes (convertFromBytes (convertToBytes 2048 FileUnit.KB)).unit|
      ≤ 1 / 100 :=
  unitRoundTrip_amended 2048 FileUnit.KB (by decide)

theorem setKey_self (m : Results) (key : String) (v : JsonVal) :
    setKey m key v key = some v := by
  simp [setKey]

theorem setKey_ne (m : Results) (key : String) (v : JsonVal) (k : String) (h : k ≠ key) :
    setKey m key v k = m k := by
  simp [setKey, h]

theorem applyStores_ne (stores : List (String × JsonVal)) :
    ∀ (m : Results) (k : String), (∀ p ∈ stores, p.1 ≠ k) →
      applyStores m stores k = m k := by
  induction stores with
  | nil => intro m k _; rfl
  | cons p l ih =>
      intro m k h
      simp only [applyStores, List.foldl_cons]
      have step := ih (setKey m p.1 p.2) k (fun q hq => h q (List.mem_cons_of_mem p hq))
      rw [applyStores] at step
      rw [step, setKey_ne m p.1 p.2 k (Ne.symm (h p (List.mem_cons_self p l)))]

theorem fetchTestLoop_keys (outcome : ℕ → FetchOutcome) (key : String) (retries : ℕ) :
    ∀ (fuel i : ℕ) (p : String × JsonVal),
      p ∈ (fetchTestLoop outcome key retries fuel i).2 → p.1 = key := by
  intro fuel
  induction fuel with
  | zero => intro i p hp; simp [fetchTestLoop] at hp
  | succ fuel ih =>
      intro i p hp
      by_cases hi : i < retries
      · simp only [fetchTestLoop, if_pos hi] at hp
        cases ho : outcome i with
        | success body =>
            rw [ho] at hp
            simp at hp
            simp [hp]
        | failure msg =>
            rw [ho] at hp
            by_cases he : i = retries - 1
            · simp [he] at hp
              simp [hp]
            · simp [he] at hp
              exact ih (i + 1) p hp
      · simp [fetchTestLoop, hi] at hp

theorem applyStores_fetchTest_ne (m : Results) (outcome : ℕ → FetchOutcome)
    (key k : String) (h : k ≠ key) :
    applyStores m (fetchTest outcome key).2 k = m k :=
  applyStores_ne _ m k (fun p hp => by
    rw [fetchTestLoop_keys outcome key 3 3 0 p hp]
    exact Ne.symm h)

/-- C7: Against an endpoint whose every request fails, the shared helper
makes exactly 3 fetch attempts, the failures of attempts 1 and 2 store
nothing, and the single store maps the probe key to the string
`Request failed: ` followed by the final attempt message. -/
theorem retryExhaustion (outcome : ℕ → FetchOutcome) (key : String) (msgs : ℕ → String)
    (h : ∀ i, outcome i = FetchOutcome.failure (msgs i)) :
    fetchTest outcome key = (3, [(key, JsonVal.str ("Request failed: " ++ msgs 2))]) := by
  simp [fetchTest, fetchTestLoop, h 0, h 1, h 2]

/-- C7 witness: an endpoint that always throws `boom`. -/
theorem retryExhaustion_witness :
    fetchTest (fun _ => FetchOutcome.failure "boom") "nmap"
      = (3, [("nmap", JsonVal.str ("Request failed: " ++ "boom"))]) :=
  retryExhaustion (fun _ => FetchOutcome.failure "boom") "nmap" (fun _ => "boom")
    (fun _ => rfl)

/-- C9: An OK first response whose body lacks the probe key or maps it to a
falsy value is not retried (exactly one fetch) and stores the string
`Error: ` followed by the rendering of the error field, which is the text
`Error: undefined` when no error field is present. -/
theorem falsySuccessStoresError (outcome : ℕ → FetchOutcome) (key : String) (body : Json)
    (h0 : outcome 0 = FetchOutcome.success body)
    (hfalsy : jsTruthy (jsLookup body key) = false) :
    fetchTest outcome key = (1, [(key, JsonVal.str ("Error: " ++ jsonErrorDisplay body))]) ∧
    (jsLookup body "error" = none → jsonErrorDisplay body = "undefined") := by
  have hstore : fetchTestStore key body = JsonVal.str ("Error: " ++ jsonErrorDisplay body) := by
    cases hl : jsLookup body key with
    | none => simp [fetchTestStore, hl]
    | some v =>
        have hv : v.truthy = false := by simpa [jsTruthy, hl] using hfalsy
        simp [fetchTestStore, hl, hv]
  refine ⟨?_, fun h => by simp [jsonErrorDisplay, h]⟩
  simp [fetchTest, fetchTestLoop, h0, hstore]

/-- C9 witness: a body mapping the probe key to the falsy value 0 and
carrying no error field. -/
theorem falsySuccessStoresError_witness :
    fetchTest (fun _ => FetchOutcome.success [("ports", JsonVal.num 0)]) "ports"
      = (1, [("ports", JsonVal.str ("Error: " ++ jsonErrorDisplay [("ports", JsonVal.num 0)]))]) ∧
    (jsLookup [("ports", JsonVal.num 0)] "error" = none →
      jsonErrorDisplay [("ports", JsonVal.num 0)] = "undefined") :=
  falsySuccessStoresError (fun _ => FetchOutcome.success [("ports", JsonVal.num 0)])
    "ports" [("ports", JsonVal.num 0)] rfl (by decide)

/-- C8: After the ping probe settles, the stored ping value is the measured
wall-clock elapsed milliseconds formatted with an `ms` suffix, overwriting
the JSON-derived value the generic helper stored, for every environment and
snapshot; in particular a ping endpoint answering the JSON body with
ping = 999 under a measured 42 ms round trip leaves `42ms` stored, not 999. -/
theorem pingOverride :
    (∀ (results0 : Results) (env : CycleEnv),
      (fetchData results0 env).results "ping"
        = some (JsonVal.str (toString (env.pingEnd - env.pingStart) ++ "ms"))) ∧
    (fetchData emptyResults pingEnv999).results "ping" = some (JsonVal.str "42ms") ∧
    jsLookup [("ping", JsonVal.num 999)] "ping" = some (JsonVal.num 999) := by
  have hgen : ∀ (results0 : Results) (env : CycleEnv),
      (fetchData results0 env).results "ping"
        = some (JsonVal.str (toString (env.pingEnd - env.pingStart) ++ "ms")) := by
    intro results0 env
    by_cases hd : env.downloadHasBody
    · simp only [fetchData, hd, eq_self_iff_true, if_true]
      rw [applyStores_fetchTest_ne _ _ _ _ (by decide),
        applyStores_fetchTest_ne _ _ _ _ (by decide),
        applyStores_fetchTest_ne _ _ _ _ (by decide),
        applyStores_fetchTest_ne _ _ _ _ (by decide),
        applyStores_fetchTest_ne _ _ _ _ (by decide),
        applyStores_fetchTest_ne _ _ _ _ (by decide),
        setKey_ne _ _ _ _ (by decide), setKey_ne _ _ _ _ (by decide),
        setKey_self]
    · simp only [fetchData, hd, Bool.false_eq_true, if_false]
      rw [setKey_self]
  refine ⟨hgen, ?_, by decide⟩
  rw [hgen emptyResults pingEnv999]
  decide

theorem toFixed2_one : toFixed2 1 = "1.00" := by
  have hfl : ratFloor ((1 : ℚ) * 100 + 1 / 2) = 100 := by
    rw [ratFloor_eq_floor]
    exact Int.floor_eq_iff.mpr ⟨by norm_num, by norm_num⟩
  simp only [toFixed2, hfl]
  decide

theorem jsParseFloat_one : jsParseFloat "1.00" = some 1 := by
  with_unfolding_all decide

theorem jsParseFloat_42ms : jsParseFloat "42ms" = some 42 := by
  with_unfolding_all decide

/-- C2 is wrong about the code: the history append reads `results.ping`
from the state snapshot the closure captured when `fetchData` was invoked,
not from the result map as updated during the cycle. On the first cycle the
snapshot is the initial empty state, so the appended ping is
parseFloat(undefined) = NaN (`none`), even though the map holds `42ms` at
append time (which parses to 42). -/
theorem historyPingStale :
    (fetchData emptyResults staleEnv).results "ping" = some (JsonVal.str "42ms") ∧
    jsParseFloat "42ms" = some 42 ∧
    (fetchData emptyResults staleEnv).historyEntry
      = some { timestamp := "t", ping := none, download := some 1, upload := some 1 } := by
  refine ⟨?_, jsParseFloat_42ms, ?_⟩
  · simp only [fetchData, staleEnv, eq_self_iff_true, if_true]
    rw [applyStores_fetchTest_ne _ _ _ _ (by decide),
      applyStores_fetchTest_ne _ _ _ _ (by decide),
      applyStores_fetchTest_ne _ _ _ _ (by decide),
      applyStores_fetchTest_ne _ _ _ _ (by decide),
      applyStores_fetchTest_ne _ _ _ _ (by decide),
      applyStores_fetchTest_ne _ _ _ _ (by decide),
      setKey_ne _ _ _ _ (by decide), setKey_ne _ _ _ _ (by decide),
      setKey_self]
    decide
  · simp only [fetchData, staleEnv, eq_self_iff_true, if_true, jsOrNum]
    norm_num
    rw [toFixed2_one, jsParseFloat_one]
    simp [emptyResults, jsParseFloatVal]

/-- C10: A download response without a readable stream body makes the cycle
abort on a thrown error: the upload probe and the six scan probes never
run and their keys keep the placeholder strings, no HistoryEntry is
appended, and the loading flag is never cleared. -/
theorem downloadAbortStopsCycle (results0 : Results) (env : CycleEnv)
    (h : env.downloadHasBody = false) :
    (fetchData results0 env).aborted = some "Failed to read download stream" ∧
    (fetchData results0 env).historyEntry = none ∧
    (fetchData results0 env).loading = true ∧
    (fetchData results0 env).results "upload" = some (JsonVal.str "Testing...") ∧
    (fetchData results0 env).results "nmap" = some (JsonVal.str "Scanning...") ∧
    (fetchData results0 env).results "ports" = some (JsonVal.str "Scanning...") ∧
    (fetchData results0 env).results "services" = some (JsonVal.str "Detecting...") ∧
    (fetchData results0 env).results "vuln" = some (JsonVal.str "Scanning...") ∧
    (fetchData results0 env).results "ssl" = some (JsonVal.str "Checking...") ∧
    (fetchData results0 env).results "firewall" = some (JsonVal.str "Checking...") := by
  have hkey : ∀ k : String, k ≠ "ping" → k ≠ "ip" →
      (fetchData results0 env).results k = placeholderResults k := by
    intro k h1 h2
    simp only [fetchData, h, Bool.false_eq_true, if_false]
    rw [setKey_ne _ _ _ _ h1, applyStores_fetchTest_ne _ _ _ _ h1,
      applyStores_fetchTest_ne _ _ _ _ h2]
  refine ⟨?_, ?_, ?_, ?_, ?_, ?_, ?_, ?_, ?_, ?_⟩
  · simp [fetchData, h]
  · simp [fetchData, h]
  · simp [fetchData, h]
  · rw [hkey "upload" (by decide) (by decide)]; rfl
  · rw [hkey "nmap" (by decide) (by decide)]; rfl
  · rw [hkey "ports" (by decide) (by decide)]; rfl
  · rw [hkey "services" (by decide) (by decide)]; rfl
  · rw [hkey "vuln" (by decide) (by decide)]; rfl
  · rw [hkey "ssl" (by decide) (by decide)]; rfl
  · rw [hkey "firewall" (by decide) (by decide)]; rfl

/-- C10 witness: the concrete no-stream environment. -/
theorem downloadAbortStopsCycle_witness :
    (fetchData emptyResults abortEnv).aborted = some "Failed to read download stream" ∧
    (fetchData emptyResults abortEnv).historyEntry = none ∧
    (fetchData emptyResults abortEnv).loading = true ∧
    (fetchData emptyResults abortEnv).results "upload" = some (JsonVal.str "Testing...") ∧
    (fetchData emptyResults abortEnv).results "nmap" = some (JsonVal.str "Scanning...") ∧
    (fetchData emptyResults abortEnv).results "ports" = some (JsonVal.str "Scanning...") ∧
    (fetchData emptyResults abortEnv).results "services" = some (JsonVal.str "Detecting...") ∧
    (fetchData emptyResults abortEnv).results "vuln" = some (JsonVal.str "Scanning...") ∧
    (fetchData emptyResults abortEnv).results "ssl" = some (JsonVal.str "Checking...") ∧
    (fetchData emptyResults abortEnv).results "firewall" = some (JsonVal.str "Checking...") :=
  downloadAbortStopsCycle emptyResults abortEnv rfl

end CipherX
